import Mathlib

set_option autoImplicit false

/-!
Verification of the state/control slice of tencent-ace-tools (frontend):
the log aggregator (`src/providers/logger-provider.tsx`), the guarded async
action runner (`src/hooks/use-ace-process-controller.ts`,
`src/components/ace-process-controller.tsx`), the admin status indicator
(`src/components/running-status.tsx`, `src/hooks/use-is-running-as-admin.ts`)
and the query-client revalidation defaults (`src/providers/root-provider.tsx`).
-/

/-- Log severity levels. Modelled from the spec: the `LogEvent` payload type is
generated in `@/bindings` (absent from the sources); the spec fixes the severity
enum as {trace, debug, info, warn, error}. -/
inductive LogLevel where
  | trace
  | debug
  | info
  | warn
  | error
deriving DecidableEq

/-- Modelled from the spec: a `LogRecord` value carries a severity level, a
timestamp, a free-text source/target label, a free-text message, and a mapping
of string keys to string values (structured context fields). -/
structure LogRecord where
  level : LogLevel
  timestamp : String
  target : String
  message : String
  fields : List (String × String)
deriving DecidableEq

/-- A JavaScript object holding a `LogRecord` payload, as delivered to the
subscription callback in `logger-provider.tsx`. `ref` is the object's identity
(its reference): JavaScript `Set` membership (SameValueZero) compares objects
by reference, never structurally, so two deliveries that deserialize the same
record produce objects with distinct `ref`. A live object's value never changes
(records are immutable), so `ref` determines `val` in any real trace. -/
structure LogEventObj where
  ref : Nat
  val : LogRecord
deriving DecidableEq

/-- `Set.add` as used by `logs.add(payload)` in `logger-provider.tsx` (via
`useSet` from `@uidotdev/usehooks`, a thin wrapper over the native JavaScript
`Set`): insertion-ordered, and a duplicate — same reference — is ignored. -/
def jsSetAdd (s : List LogEventObj) (x : LogEventObj) : List LogEventObj :=
  if x.ref ∈ s.map LogEventObj.ref then s else s ++ [x]

/-- Deliver a sequence of log events to the aggregator's subscription callback,
starting from an empty collection: each event is inserted with `logs.add`. -/
def deliverAll (es : List LogEventObj) : List LogEventObj :=
  es.foldl jsSetAdd []

/-- State of the `LoggerProvider` aggregator together with the backend event
channel it subscribes to: the registered listeners on `events.logEvent`, a
counter of how many times `listen` was invoked, the React flag recording that
the empty-dependency effect has already run, the log collection (the `useSet`),
and the viewer visibility flag (the `useState(false)`). -/
structure AggregatorState where
  listeners : List Nat
  nextListener : Nat
  listenCalls : Nat
  effectHasRun : Bool
  logs : List LogEventObj
  openLoggerViewer : Bool
deriving DecidableEq

/-- The aggregator's state at provider creation: no subscription yet, empty log
collection, viewer closed (`useState(false)`). -/
def initialAggState : AggregatorState :=
  { listeners := []
  , nextListener := 0
  , listenCalls := 0
  , effectHasRun := false
  , logs := []
  , openLoggerViewer := false }

/-- The body of the `useEffect` in `LoggerProvider`: register one listener on
`events.logEvent`. -/
def subscribeLogEvents (s : AggregatorState) : AggregatorState :=
  { s with
    listeners := s.listeners ++ [s.nextListener]
  , nextListener := s.nextListener + 1
  , listenCalls := s.listenCalls + 1
  , effectHasRun := true }

/-- One React render/commit cycle of `LoggerProvider`: the effect has an empty
dependency array (`[]`), so it runs after the first render and is skipped on
every re-render. -/
def render (s : AggregatorState) : AggregatorState :=
  if s.effectHasRun then s else subscribeLogEvents s

/-- Backend emission of a log event on the `events.logEvent` channel: every
registered listener's callback runs `logs.add(payload)`; with no listener
registered the event is dropped. -/
def emitLogEvent (e : LogEventObj) (s : AggregatorState) : AggregatorState :=
  if s.listeners.isEmpty then s else { s with logs := jsSetAdd s.logs e }

/-- Completion of the effect's cleanup `unlisten.then((f) => f())`: once the
unlisten function has run, the subscription registered by the effect is
removed from the channel. -/
def teardown (s : AggregatorState) : AggregatorState :=
  { s with listeners := [] }

/-- `setOpenLoggerViewer` as exposed by the provider: a plain `useState`
setter for the viewer visibility flag. -/
def setOpenLoggerViewer (b : Bool) (s : AggregatorState) : AggregatorState :=
  { s with openLoggerViewer := b }

/-- Apply a sequence of `setOpenLoggerViewer` calls. -/
def applyToggles (s : AggregatorState) : List Bool → AggregatorState
  | [] => s
  | b :: bs => applyToggles (setOpenLoggerViewer b s) bs

/-- The context value type provided by `LoggerProvider` (its data fields:
`logs`, `length`, `openLoggerViewer`). -/
structure LoggerContextType where
  logs : List LogEventObj
  length : Nat
  openLoggerViewer : Bool
deriving DecidableEq

/-- The context value `LoggerProvider` supplies: `Array.from(logs)`, the set's
`size`, and the visibility flag. -/
def providerContextValue (s : AggregatorState) : LoggerContextType :=
  { logs := s.logs
  , length := s.logs.length
  , openLoggerViewer := s.openLoggerViewer }

/-- `useLogger` from `logger-provider.tsx`: reads the context (absent when the
caller is not rendered inside a `LoggerProvider`), throws when it is null, and
returns it otherwise. -/
def useLogger : Option LoggerContextType → Except String LoggerContextType
  | none => Except.error "useLogger must be used within a LoggerProvider"
  | some ctx => Except.ok ctx

theorem jsSetAdd_map_ref (s : List LogEventObj) (x : LogEventObj) :
    (jsSetAdd s x).map LogEventObj.ref =
      if x.ref ∈ s.map LogEventObj.ref then s.map LogEventObj.ref
      else s.map LogEventObj.ref ++ [x.ref] := by
  unfold jsSetAdd
  split <;> simp

theorem mem_map_ref_jsSetAdd (s : List LogEventObj) (x : LogEventObj) (r : Nat) :
    r ∈ (jsSetAdd s x).map LogEventObj.ref ↔
      r ∈ s.map LogEventObj.ref ∨ r = x.ref := by
  rw [jsSetAdd_map_ref]
  split
  · constructor
    · exact Or.inl
    · rintro (h | rfl)
      · exact h
      · assumption
  · rw [List.mem_append, List.mem_singleton]

theorem mem_foldl_jsSetAdd (es : List LogEventObj) :
    ∀ (acc : List LogEventObj) (r : Nat),
      r ∈ (es.foldl jsSetAdd acc).map LogEventObj.ref ↔
        r ∈ acc.map LogEventObj.ref ∨ r ∈ es.map LogEventObj.ref := by
  induction es with
  | nil =>
      intro acc r
      rw [List.foldl_nil, List.map_nil]
      exact (or_iff_left (List.not_mem_nil r)).symm
  | cons x xs ih =>
      intro acc r
      rw [List.foldl_cons, ih (jsSetAdd acc x) r, mem_map_ref_jsSetAdd,
        List.map_cons, List.mem_cons, or_assoc]

theorem nodup_foldl_jsSetAdd (es : List LogEventObj) :
    ∀ acc : List LogEventObj,
      (acc.map LogEventObj.ref).Nodup →
      ((es.foldl jsSetAdd acc).map LogEventObj.ref).Nodup := by
  induction es with
  | nil => intro acc h; simpa using h
  | cons x xs ih =>
      intro acc h
      rw [List.foldl_cons]
      apply ih
      rw [jsSetAdd_map_ref]
      split
      · exact h
      · rename_i hnot
        exact ((List.perm_append_singleton x.ref
          (acc.map LogEventObj.ref)).nodup_iff).mpr (List.nodup_cons.mpr ⟨hnot, h⟩)

theorem deliverAll_length (es : List LogEventObj) :
    (deliverAll es).length = (es.map LogEventObj.ref).dedup.length := by
  have hnd : ((deliverAll es).map LogEventObj.ref).Nodup :=
    nodup_foldl_jsSetAdd es [] (by simp)
  have hperm : List.Perm ((deliverAll es).map LogEventObj.ref)
      ((es.map LogEventObj.ref).dedup) := by
    rw [List.perm_ext_iff_of_nodup hnd (List.nodup_dedup _)]
    intro a
    rw [deliverAll, mem_foldl_jsSetAdd, List.mem_dedup, List.map_nil]
    exact or_iff_right (List.not_mem_nil a)
  calc (deliverAll es).length
      = ((deliverAll es).map LogEventObj.ref).length := (List.length_map _ _).symm
    _ = (es.map LogEventObj.ref).dedup.length := hperm.length_eq

theorem jsSetAdd_idem (s : List LogEventObj) (x : LogEventObj) :
    jsSetAdd (jsSetAdd s x) x = jsSetAdd s x := by
  have hmem : x.ref ∈ (jsSetAdd s x).map LogEventObj.ref :=
    (mem_map_ref_jsSetAdd s x x.ref).mpr (Or.inr rfl)
  rw [jsSetAdd, if_pos hmem]

theorem jsSetAdd_length_mono (s : List LogEventObj) (x : LogEventObj) :
    s.length ≤ (jsSetAdd s x).length := by
  unfold jsSetAdd
  split
  · exact Nat.le_refl _
  · simp

/-- A log record used as a concrete counterexample value. -/
def cexRecord : LogRecord :=
  { level := LogLevel.info
  , timestamp := "2024-01-01T00:00:00Z"
  , target := "app::core"
  , message := "backend started"
  , fields := [("pid", "1234")] }

/-- First delivery of `cexRecord`: a fresh object with identity 0. -/
def cexEventA : LogEventObj := { ref := 0, val := cexRecord }

/-- Second delivery of the structurally identical record: a fresh object with
identity 1, as produced when the event stream deserializes the payload again. -/
def cexEventB : LogEventObj := { ref := 1, val := cexRecord }

/-- **C2** (counterexample): delivering two structurally identical log events
(fresh objects, hence distinct references) yields a snapshot of size 2 holding
two fully value-identical entries, while only one distinct-by-full-value event
was delivered — so the snapshot size is not the distinct-by-value count and
the collection does contain two value-identical entries. -/
theorem logs_not_dedup_by_value_cex :
    cexEventA.val = cexEventB.val ∧
    cexEventA ≠ cexEventB ∧
    cexEventA ∈ deliverAll [cexEventA, cexEventB] ∧
    cexEventB ∈ deliverAll [cexEventA, cexEventB] ∧
    (deliverAll [cexEventA, cexEventB]).length = 2 ∧
    ([cexEventA, cexEventB].map LogEventObj.val).dedup.length = 1 := by
  refine ⟨rfl, by decide, ?_, ?_, rfl, by decide⟩
  · show cexEventA ∈ [cexEventA, cexEventB]
    exact List.mem_cons_self _ _
  · show cexEventB ∈ [cexEventA, cexEventB]
    exact List.mem_cons_of_mem _ (List.mem_cons_self _ _)

/-- **C2** (amended): the log collection deduplicates by object reference
(JavaScript `Set` membership), not by structural value: for every delivery
sequence the snapshot size equals the number of distinct-by-reference events
delivered, delivering the same event object twice leaves the collection
unchanged (idempotent insertion), and an insertion never shrinks it. -/
theorem logs_dedup_by_reference (es s : List LogEventObj) (x : LogEventObj) :
    (deliverAll es).length = (es.map LogEventObj.ref).dedup.length ∧
    jsSetAdd (jsSetAdd s x) x = jsSetAdd s x ∧
    s.length ≤ (jsSetAdd s x).length :=
  ⟨deliverAll_length es, jsSetAdd_idem s x, jsSetAdd_length_mono s x⟩

theorem render_iterate (n : Nat) :
    render^[n + 1] initialAggState = subscribeLogEvents initialAggState := by
  induction n with
  | zero => rfl
  | succ m ih =>
      rw [Function.iterate_succ_apply', ih]
      rfl

/-- **C4**: the log-event subscription is established exactly once per
aggregator lifetime — after the mount render and any number of re-renders,
`listen` has been called exactly once; teardown removes the subscription from
the channel; and once the unsubscribe has completed, delivering an event
leaves the aggregator (in particular the log snapshot) unchanged. -/
theorem subscription_once_and_no_insert_after_teardown
    (n : Nat) (e : LogEventObj) :
    (render^[n + 1] initialAggState).listenCalls = 1 ∧
    (teardown (render^[n + 1] initialAggState)).listeners = [] ∧
    emitLogEvent e (teardown (render^[n + 1] initialAggState)) =
      teardown (render^[n + 1] initialAggState) := by
  rw [render_iterate n]
  exact ⟨rfl, rfl, rfl⟩

theorem applyToggles_logs (bs : List Bool) :
    ∀ s : AggregatorState, (applyToggles s bs).logs = s.logs := by
  induction bs with
  | nil => intro s; rfl
  | cons b bs ih => intro s; exact ih (setOpenLoggerViewer b s)

/-- **C5**: viewer visibility and the log collection are independent — any
sequence of `setOpenLoggerViewer` calls leaves the log snapshot and its size
unchanged; inserting a delivered event, rendering, and teardown all leave the
visibility flag unchanged (receiving logs never forces the viewer open); only
`setOpenLoggerViewer` writes the flag, and it defaults to closed. -/
theorem viewer_visibility_independent_of_logs
    (s : AggregatorState) (bs : List Bool) (e : LogEventObj) (b : Bool) :
    (applyToggles s bs).logs = s.logs ∧
    (applyToggles s bs).logs.length = s.logs.length ∧
    (emitLogEvent e s).openLoggerViewer = s.openLoggerViewer ∧
    (render s).openLoggerViewer = s.openLoggerViewer ∧
    (teardown s).openLoggerViewer = s.openLoggerViewer ∧
    (setOpenLoggerViewer b s).openLoggerViewer = b ∧
    initialAggState.openLoggerViewer = false := by
  refine ⟨applyToggles_logs bs s, by rw [applyToggles_logs bs s], ?_, ?_, rfl, rfl, rfl⟩
  · unfold emitLogEvent
    split <;> rfl
  · unfold render
    split <;> rfl

/-- **C10**: `useLogger` outside a `LoggerProvider` (null context) throws the
error "useLogger must be used within a LoggerProvider"; inside a provider it
never throws and returns the provider's current context value. -/
theorem useLogger_requires_provider
    (c : LoggerContextType) (s : AggregatorState) :
    useLogger none = Except.error "useLogger must be used within a LoggerProvider" ∧
    useLogger (some c) = Except.ok c ∧
    useLogger (some (providerContextValue s)) = Except.ok (providerContextValue s) :=
  ⟨rfl, rfl, rfl⟩

/-- The uniform backend result contract. Modelled from the spec: every command
in the generated bindings (absent from the sources) returns either a success
payload or a failure description. -/
inductive TResult (α : Type) where
  | ok (val : α)
  | err (e : String)
deriving DecidableEq

/-- Modelled from the spec: `unwrapResult` (in `@/lib/result`, absent from the
sources) unwraps the uniform contract — it returns the payload on success and
propagates the failure description upward as a thrown error; `Except.error`
models the throw. -/
def unwrapResult {α : Type} : TResult α → Except String α
  | TResult.ok a => Except.ok a
  | TResult.err e => Except.error e

/-- Modelled from the spec: an opaque backend guard-process record (the
bindings are absent from the sources), interpreted only through its boolean
`is_optimized` flag; all other keys are uninterpreted. -/
structure ProcessRecord where
  is_optimized : Bool
  fields : List (String × String)
deriving DecidableEq

/-- The react-query cache slice touched by this view: the guard-process query,
the controller-privileges query and the running-as-admin query, each with a
fetch counter (how many fetches have been issued) and its cached data. -/
structure QueryCacheState where
  guardFetches : Nat
  guardData : Option (List ProcessRecord)
  privilegesFetches : Nat
  privilegesData : Option String
  adminFetches : Nat
  adminData : Option Bool
deriving DecidableEq

/-- The cache before any query has resolved. -/
def initialCache : QueryCacheState :=
  { guardFetches := 0
  , guardData := none
  , privilegesFetches := 0
  , privilegesData := none
  , adminFetches := 0
  , adminData := none }

/-- `guard.refetch()`: issue one new guard-process fetch, whose resolution
replaces the cached guard data wholesale. -/
def refetchGuard (fresh : List ProcessRecord) (s : QueryCacheState) : QueryCacheState :=
  { s with guardFetches := s.guardFetches + 1, guardData := some fresh }

/-- `tryOptimizeProcesses` from `use-ace-process-controller.ts`: unwrap the
settled result of `commands.optimizeAceGuardProcesses()`, then await
`guard.refetch()`, then return the unwrapped value. When the unwrap throws
(the command settled as a failure), the async function rejects at that point:
the statements after it — the re-fetch — never run. `optRes` is the settled
result of the write command; `fresh` is what the re-fetch would resolve to. -/
def tryOptimizeProcesses (optRes : TResult Unit) (fresh : List ProcessRecord)
    (s : QueryCacheState) : Except String Unit × QueryCacheState :=
  match unwrapResult optRes with
  | Except.error e => (Except.error e, s)
  | Except.ok a => (Except.ok a, refetchGuard fresh s)

/-- A `toast.error` notification: title and human-readable description. -/
structure Toast where
  title : String
  description : String
deriving DecidableEq

/-- Modelled from the spec: `formatError` (in `@/lib/fmt`, absent from the
sources) renders the failure as its human-readable description. -/
def formatError (e : String) : String := e

/-- `handleOptimize` from `ace-process-controller.tsx`: await
`tryOptimizeProcesses()` inside try/catch; on a caught failure produce one
`toast.error` whose description formats the error. The function returns a
plain value for every input — the failure is never re-thrown past it. -/
def handleOptimize (optRes : TResult Unit) (fresh : List ProcessRecord)
    (s : QueryCacheState) : List Toast × QueryCacheState :=
  match tryOptimizeProcesses optRes fresh s with
  | (Except.ok _, s2) => ([], s2)
  | (Except.error e, s2) =>
      ([{ title := "Failed to optimize processes. Please try again later."
        , description := formatError e }], s2)

/-- **C1** (counterexample): when the write command settles as a failure
("permission denied"), `unwrapResult` throws before `guard.refetch()` runs, so
zero — not exactly one — post-action re-fetches are issued. -/
theorem optimize_failure_no_refetch_cex :
    (tryOptimizeProcesses (TResult.err "permission denied") [] initialCache).2.guardFetches
        = initialCache.guardFetches ∧
    ¬ ((tryOptimizeProcesses (TResult.err "permission denied") [] initialCache).2.guardFetches
        = initialCache.guardFetches + 1) := by
  exact ⟨rfl, by decide⟩

/-- **C1** (amended): the post-action guard re-fetch is issued exactly when the
write command settles successfully — then exactly one new fetch is issued and
the fresh data replaces the cache; when the write settles as a failure, the
unwrap throws, the error propagates to the caller, and no re-fetch is issued
(the cache state is untouched). -/
theorem optimize_refetch_on_success_only (a : Unit) (e : String)
    (fresh : List ProcessRecord) (s : QueryCacheState) :
    (tryOptimizeProcesses (TResult.ok a) fresh s).2.guardFetches = s.guardFetches + 1 ∧
    (tryOptimizeProcesses (TResult.ok a) fresh s).2.guardData = some fresh ∧
    (tryOptimizeProcesses (TResult.ok a) fresh s).1 = Except.ok a ∧
    (tryOptimizeProcesses (TResult.err e) fresh s).1 = Except.error e ∧
    (tryOptimizeProcesses (TResult.err e) fresh s).2 = s :=
  ⟨rfl, rfl, rfl, rfl, rfl⟩

/-- **C9**: invoking the optimize action re-fetches only the guard-process
query: whatever the write command's outcome, the controller-privileges query
state and the running-as-admin query state (counters and cached data) are
unchanged by `tryOptimizeProcesses` and its post-action re-fetch. -/
theorem optimize_frames_other_queries (optRes : TResult Unit)
    (fresh : List ProcessRecord) (s : QueryCacheState) :
    (tryOptimizeProcesses optRes fresh s).2.privilegesFetches = s.privilegesFetches ∧
    (tryOptimizeProcesses optRes fresh s).2.privilegesData = s.privilegesData ∧
    (tryOptimizeProcesses optRes fresh s).2.adminFetches = s.adminFetches ∧
    (tryOptimizeProcesses optRes fresh s).2.adminData = s.adminData := by
  cases optRes <;> exact ⟨rfl, rfl, rfl, rfl⟩

/-- **C6**: whenever the optimize action fails, `handleOptimize` catches the
failure and produces exactly one transient error notification whose
description is the formatted failure, returns the resulting state normally
(nothing is re-thrown past the handler), and on success produces no
notification. -/
theorem optimize_failure_single_toast (e : String)
    (fresh : List ProcessRecord) (s : QueryCacheState) :
    (handleOptimize (TResult.err e) fresh s).1 =
      [{ title := "Failed to optimize processes. Please try again later."
       , description := formatError e }] ∧
    (handleOptimize (TResult.err e) fresh s).1.length = 1 ∧
    (handleOptimize (TResult.err e) fresh s).2 = s ∧
    (handleOptimize (TResult.ok ()) fresh s).1 = [] :=
  ⟨rfl, rfl, rfl, rfl⟩

/-- The two derived optimize-status badges rendered by
`ace-process-controller.tsx` ("optimize success" / "optimize not executed"). -/
inductive GuardBadge where
  | success
  | notYetOptimized
deriving DecidableEq

/-- `isSuccess` from `ace-process-controller.tsx` line 27:
`guard.data?.some((process) => process.is_optimized)` on resolved data. -/
def isSuccess (recs : List ProcessRecord) : Bool :=
  recs.any (fun r => r.is_optimized)

/-- The inputs the controller view has in hand after a resolved guard fetch:
the fetched record set and the optimize command's own last return value. -/
structure ControllerView where
  guardData : List ProcessRecord
  optimizeReturn : TResult Unit
deriving DecidableEq

/-- The badge choice in `ace-process-controller.tsx` lines 79–99: `isSuccess`
selects the success badge, otherwise the not-yet-optimized badge; the
expression reads only the fetched `guard.data`. -/
def statusBadge (v : ControllerView) : GuardBadge :=
  if isSuccess v.guardData then GuardBadge.success else GuardBadge.notYetOptimized

theorem isSuccess_iff (recs : List ProcessRecord) :
    isSuccess recs = true ↔ ∃ r ∈ recs, r.is_optimized = true := by
  unfold isSuccess
  rw [List.any_eq_true]

/-- **C3**: for a resolved guard fetch the derived status is "success" exactly
when some fetched record has `is_optimized` true, and "not yet optimized"
exactly otherwise; replacing the optimize command's own return value never
changes the derived status — it is computed from the fetched state alone. -/
theorem status_from_fetched_state (v : ControllerView) (ret : TResult Unit) :
    (statusBadge v = GuardBadge.success ↔ ∃ r ∈ v.guardData, r.is_optimized = true) ∧
    (statusBadge v = GuardBadge.notYetOptimized ↔
      ¬ ∃ r ∈ v.guardData, r.is_optimized = true) ∧
    statusBadge { v with optimizeReturn := ret } = statusBadge v := by
  refine ⟨?_, ?_, rfl⟩ <;> unfold statusBadge <;> split <;> rename_i h
  · exact iff_of_true rfl ((isSuccess_iff v.guardData).mp h)
  · refine iff_of_false (by simp) ?_
    rw [← isSuccess_iff v.guardData]
    simpa using h
  · refine iff_of_false (by simp) ?_
    rw [not_not, ← isSuccess_iff v.guardData]
    exact h
  · refine iff_of_true rfl ?_
    rw [← isSuccess_iff v.guardData]
    simpa using h

/-- The observable states of a react-query query: unresolved (`isPending`),
resolved with data, or errored. -/
inductive QueryStatus (α : Type) where
  | pending
  | success (data : α)
  | failure
deriving DecidableEq

/-- react-query's `isPending` flag for a query state. -/
def isPending {α : Type} : QueryStatus α → Bool
  | QueryStatus.pending => true
  | _ => false

/-- react-query's `data` field for a query state (undefined unless resolved). -/
def queryData {α : Type} : QueryStatus α → Option α
  | QueryStatus.success a => some a
  | _ => none

/-- The three mutually exclusive badges of `running-status.tsx`. -/
inductive AdminBadge where
  | checking
  | runningAsAdmin
  | notRunningAsAdmin
deriving DecidableEq

/-- The view-level state the dashboard holds: the running-as-admin query, the
guard-process query, and the optimize action's last return value. -/
structure AppViewState where
  adminQuery : QueryStatus Bool
  guardQuery : QueryStatus (List ProcessRecord)
  optimizeReturn : TResult Unit
deriving DecidableEq

/-- The badge choice in `RunningStatus` (`running-status.tsx` lines 40–72):
`isPending ? checking : status ? runningAsAdmin : notRunningAsAdmin`, where
`status` is the resolved boolean `data` of `useIsRunningAsAdmin()`. -/
def runningStatusBadge (s : AppViewState) : AdminBadge :=
  if isPending s.adminQuery then AdminBadge.checking
  else match queryData s.adminQuery with
    | some true => AdminBadge.runningAsAdmin
    | _ => AdminBadge.notRunningAsAdmin

/-- **C8**: the admin indicator renders the pending badge while the query is
unresolved, the admin badge when it resolves to true, and the non-admin badge
when it resolves to false; the three badges are pairwise distinct, and the
choice is independent of the guard-state query and the optimize action's
return value. -/
theorem admin_badge_three_state (q : QueryStatus Bool)
    (g g2 : QueryStatus (List ProcessRecord)) (o o2 : TResult Unit) :
    runningStatusBadge { adminQuery := QueryStatus.pending, guardQuery := g, optimizeReturn := o }
        = AdminBadge.checking ∧
    runningStatusBadge { adminQuery := QueryStatus.success true, guardQuery := g, optimizeReturn := o }
        = AdminBadge.runningAsAdmin ∧
    runningStatusBadge { adminQuery := QueryStatus.success false, guardQuery := g, optimizeReturn := o }
        = AdminBadge.notRunningAsAdmin ∧
    runningStatusBadge { adminQuery := q, guardQuery := g, optimizeReturn := o }
        = runningStatusBadge { adminQuery := q, guardQuery := g2, optimizeReturn := o2 } ∧
    AdminBadge.checking ≠ AdminBadge.runningAsAdmin ∧
    AdminBadge.checking ≠ AdminBadge.notRunningAsAdmin ∧
    AdminBadge.runningAsAdmin ≠ AdminBadge.notRunningAsAdmin := by
  refine ⟨rfl, rfl, rfl, rfl, ?_, ?_, ?_⟩ <;> decide

/-- The query defaults installed by the `QueryClient` in `root-provider.tsx`,
in milliseconds. -/
structure QueryConfig where
  staleTime : Nat
  refetchInterval : Nat
deriving DecidableEq

/-- `root-provider.tsx` lines 63–70: `staleTime: 1000 * 10` (10 seconds) and
`refetchInterval: 1000 * 60` (1 minute) for every query, the guard query
included (it sets no overrides). -/
def queryClientDefaults : QueryConfig :=
  { staleTime := 1000 * 10, refetchInterval := 1000 * 60 }

/-- react-query staleness: fetched data counts as stale once its age exceeds
`staleTime`. -/
def isStaleAfter (cfg : QueryConfig) (ageMs : Nat) : Bool :=
  cfg.staleTime < ageMs

/-- The `n`-th automatic background refetch fires `refetchInterval`
milliseconds after the previous one while the view is active. -/
def autoRefetchTime (cfg : QueryConfig) (n : Nat) : Nat :=
  (n + 1) * cfg.refetchInterval

/-- The refresh button of `ace-process-controller.tsx` line 105:
`onClick={() => guard.refetch()}` — a manual re-invocation of the guard
query. -/
def refreshButtonClick (fresh : List ProcessRecord) (s : QueryCacheState) : QueryCacheState :=
  refetchGuard fresh s

/-- **C7**: the guard query supports manual re-invocation (the refresh button
issues exactly one new fetch), fetched state goes stale after the fixed
10-second default (tens of seconds) and not before, and the automatic
background refetch runs on a fixed 60-second (about one minute) cadence. -/
theorem revalidation_policy (fresh : List ProcessRecord)
    (s : QueryCacheState) (n : Nat) :
    (refreshButtonClick fresh s).guardFetches = s.guardFetches + 1 ∧
    queryClientDefaults.staleTime = 10 * 1000 ∧
    queryClientDefaults.refetchInterval = 60 * 1000 ∧
    isStaleAfter queryClientDefaults (queryClientDefaults.staleTime + 1) = true ∧
    isStaleAfter queryClientDefaults queryClientDefaults.staleTime = false ∧
    autoRefetchTime queryClientDefaults (n + 1)
        = autoRefetchTime queryClientDefaults n + 60 * 1000 := by
  refine ⟨rfl, rfl, rfl, rfl, rfl, ?_⟩
  simp only [autoRefetchTime, queryClientDefaults]
  omega
